import Mathlib

/-!
Verification of the message-dispatch and conversation-state pipeline of the
agentic-slackbot repository (src/bot/slack.py, src/bot/agent.py), as a shallow
embedding in Lean.

The embedding models the Python code directly:
  * `Message`, `Conversations` model the per-channel history dict
    `self.conversations : dict[str, {"messages": list}]`.
  * `process_message` models `SlackMCPBot._process_message` (slack.py lines
    71-118), with the generation capability (`self.agent.run`) and the outbound
    send capability (`say`) passed in as oracles returning `Except`, where
    `Except.error e` stands for a raised Python exception whose `str(e)` is `e`.
  * `initialize_bot_info` models `SlackMCPBot.initialize_bot_info` (lines
    51-59); the bot-id attribute is `Option (Option String)`: `none` = attribute
    absent (before the method runs), `some none` = attribute set to Python
    `None`, `some (some id)` = attribute set to the string `id`.
  * `connect` models `OpenAIAgent.connect` (agent.py lines 52-58).
  * `pyReplace` and `pyStrip` model Python `str.replace(old, new)` (leftmost,
    non-overlapping, all occurrences, nonempty pattern) and `str.strip()`
    (drop surrounding whitespace), executably over the character list.
-/

/-- One entry of a channel's conversation history:
`{"role": ..., "content": ...}`. -/
structure Message where
  role : String
  content : String
deriving DecidableEq

/-- The fields of an inbound Slack event payload that `_process_message`
reads. `none` models an absent key (Python `event.get(k)` returning `None`);
`event["channel"]` is accessed unconditionally, so `channel` is plain. -/
structure InboundEvent where
  channel : String
  user : Option String := none
  text : Option String := none
  thread_ts : Option String := none
  ts : Option String := none
deriving DecidableEq

/-- The per-channel conversation map `self.conversations`, as an association
list from channel id to that channel's message list. -/
abbrev Conversations := List (String × List Message)

/-- Dictionary lookup `self.conversations.get(channel)`. -/
def findConv : Conversations → String → Option (List Message)
  | [], _ => none
  | (k, v) :: rest, c => if k = c then some v else findConv rest c

/-- The message list stored for a channel (empty when the channel is absent,
matching a read that happens only after the entry was created). -/
def getMessages (convs : Conversations) (c : String) : List Message :=
  (findConv convs c).getD []

/-- Dictionary update `self.conversations[channel] = ...`. -/
def setMessages : Conversations → String → List Message → Conversations
  | [], c, ms => [(c, ms)]
  | (k, v) :: rest, c, ms =>
    if k = c then (c, ms) :: rest else (k, v) :: setMessages rest c ms

/-- Lines 88-89: `if channel not in self.conversations:
self.conversations[channel] = {"messages": []}`. -/
def ensureChannel (convs : Conversations) (c : String) : Conversations :=
  if (findConv convs c).isNone then setMessages convs c [] else convs

/-- `self.conversations[channel]["messages"].append(m)`. -/
def appendMessage (convs : Conversations) (c : String) (m : Message) :
    Conversations :=
  setMessages convs c (getMessages convs c ++ [m])

/-- N sequential appends to one channel, oldest first. -/
def appendAll (convs : Conversations) (c : String) (ms : List Message) :
    Conversations :=
  ms.foldl (fun cv m => appendMessage cv c m) convs

/-- Python `l[-n:]` for `n ≥ 1`: the last `min(|l|, n)` elements. -/
def lastN (n : Nat) (l : List α) : List α := l.drop (l.length - n)

/-- The bounded read window: line 101's
`self.conversations[channel]["messages"][-5:]` generalised over the size. -/
def recentWindow (convs : Conversations) (c : String) (n : Nat) :
    List Message :=
  lastN n (getMessages convs c)

/-- Python `str.replace` worker over character lists, with fuel for structural
recursion; fuel `= length of the subject` always suffices because every step
consumes at least one character. Requires a nonempty pattern. -/
def replaceAux (pat rep : List Char) : Nat → List Char → List Char
  | _, [] => []
  | 0, s => s
  | Nat.succ fuel, c :: cs =>
    if pat.isPrefixOf (c :: cs) then
      rep ++ replaceAux pat rep fuel ((c :: cs).drop pat.length)
    else
      c :: replaceAux pat rep fuel cs

/-- Python `s.replace(pat, rep)`: replace every leftmost non-overlapping
occurrence. The empty-pattern case (unreachable here: the pattern is always
`<@...>`) is mapped to the identity. -/
def pyReplace (s pat rep : String) : String :=
  if pat.data = [] then s
  else ⟨replaceAux pat.data rep.data s.data.length s.data⟩

/-- Python `s.strip()`: drop leading and trailing whitespace. -/
def pyStrip (s : String) : String :=
  ⟨((s.data.dropWhile Char.isWhitespace).reverse.dropWhile
      Char.isWhitespace).reverse⟩

/-- The literal self-mention token `<@bot_id>` built by line 83's f-string. -/
def mentionToken (id : String) : String := "<@" ++ id ++ ">"

/-- Line 77's `getattr(self, "bot_id", None)`: absent attribute reads as
`None`. -/
def getattr_bot_id : Option (Option String) → Option String
  | none => none
  | some v => v

/-- Lines 81-83: take `event.get("text", "")` and, when
`hasattr(self, "bot_id") and self.bot_id` is truthy, remove every occurrence
of the mention token and strip surrounding whitespace; otherwise leave the
raw text untouched. -/
def effectiveText (bot : Option (Option String)) (raw : String) : String :=
  match bot with
  | some (some id) =>
    if id = "" then raw else pyStrip (pyReplace raw (mentionToken id) "")
  | _ => raw

/-- Line 85: `thread_ts = event.get("thread_ts", event.get("ts"))`. -/
def resolveAnchor (e : InboundEvent) : Option String :=
  match e.thread_ts with
  | some v => some v
  | none => e.ts

/-- One invocation of the `say` capability: line 113/118's
`say(text=..., channel=..., thread_ts=...)`. -/
structure SayCall where
  text : String
  channel : String
  thread_ts : Option String
deriving DecidableEq

/-- How one `_process_message` call ends: early return at the self-check,
normal completion, or a Python exception escaping the method (carrying the
exception text). -/
inductive DispatchOutcome where
  | discarded
  | sent
  | raised (msg : String)
deriving DecidableEq

/-- Observable result of one `_process_message` call: the updated conversation
map, the `say` invocations attempted in order, and how the call ended. -/
structure DispatchResult where
  convs : Conversations
  calls : List SayCall
  outcome : DispatchOutcome
deriving DecidableEq

/-- Line 116's f-string `f"I'm sorry, I encountered an error: \x7bstr(e)\x7d"`. -/
def errorMessage (e : String) : String :=
  "I\x27m sorry, I encountered an error: " ++ e

/-- The conversation map right after step 4 (line 95's user append, preceded
by the lazy channel creation of lines 88-89). -/
def userAppended (bot : Option (Option String)) (convs : Conversations)
    (event : InboundEvent) : Conversations :=
  appendMessage (ensureChannel convs event.channel) event.channel
    ⟨"user", effectiveText bot (event.text.getD "")⟩

/-- The history slice passed to `self.agent.run` for this event: line 101's
`[-5:]` read, taken after the user append. -/
def windowFor (bot : Option (Option String)) (convs : Conversations)
    (event : InboundEvent) : List Message :=
  recentWindow (userAppended bot convs event) event.channel 5

/-- `SlackMCPBot._process_message` (slack.py lines 71-118). `gen` is
`self.agent.run`, `send` is `say`; `Except.error e` models a raised exception
with text `e`. The `try` of lines 91-113 catches any exception from `gen` or
from the first `send` and answers with `errorMessage`; an exception from the
`except`-block's own `send` (line 118) propagates out of the method. -/
def process_message (bot : Option (Option String)) (convs : Conversations)
    (event : InboundEvent) (gen : List Message → Except String String)
    (send : SayCall → Except String Unit) : DispatchResult :=
  if event.user = getattr_bot_id bot then
    ⟨convs, [], .discarded⟩
  else
    let thread_ts := resolveAnchor event
    let convs1 := userAppended bot convs event
    let window := windowFor bot convs event
    match gen window with
    | .error e =>
      let call : SayCall := ⟨errorMessage e, event.channel, thread_ts⟩
      match send call with
      | .ok _ => ⟨convs1, [call], .sent⟩
      | .error m => ⟨convs1, [call], .raised m⟩
    | .ok reply =>
      let convs2 := appendMessage convs1 event.channel ⟨"assistant", reply⟩
      let call : SayCall := ⟨reply, event.channel, thread_ts⟩
      match send call with
      | .ok _ => ⟨convs2, [call], .sent⟩
      | .error m =>
        let call2 : SayCall := ⟨errorMessage m, event.channel, thread_ts⟩
        match send call2 with
        | .ok _ => ⟨convs2, [call, call2], .sent⟩
        | .error m2 => ⟨convs2, [call, call2], .raised m2⟩

/-- A log line, tagged with its level. -/
inductive LogEntry where
  | info (s : String)
  | error (s : String)
deriving DecidableEq

/-- `SlackMCPBot.initialize_bot_info` (slack.py lines 51-59): on success the
`bot_id` attribute becomes the returned user id; on failure the exception is
caught, logged, and the attribute becomes `None`. Either way the method
returns (startup proceeds). -/
def initialize_bot_info (auth : Except String String) :
    Option (Option String) × List LogEntry :=
  match auth with
  | .ok uid => (some (some uid), [.info ("Bot initialized with ID: " ++ uid)])
  | .error e => (some none, [.error ("Failed to get bot info: " ++ e)])

/-- One MCP server handle, identified by its name. -/
structure MCPServer where
  name : String
deriving DecidableEq

/-- `OpenAIAgent.connect` (agent.py lines 52-58): iterate over every owned
server; `connect()` each inside its own `try`, logging success at info level
and failure at error level with the server's name; never re-raise. Returns
the servers attempted (in order) and the log. -/
def connect (servers : List MCPServer)
    (outcome : MCPServer → Except String Unit) :
    List String × List LogEntry :=
  match servers with
  | [] => ([], [])
  | s :: rest =>
    let tail := connect rest outcome
    match outcome s with
    | .ok _ =>
      (s.name :: tail.1, .info ("Server " ++ s.name ++ " connecting") :: tail.2)
    | .error e =>
      (s.name :: tail.1,
        .error ("Error during connecting of server " ++ s.name ++ ": " ++ e)
          :: tail.2)

/-- Writing a channel's list and reading the same channel gives it back. -/
theorem getMessages_setMessages_self (convs : Conversations) (c : String)
    (ms : List Message) : getMessages (setMessages convs c ms) c = ms := by
  induction convs with
  | nil => simp [setMessages, getMessages, findConv]
  | cons kv rest ih =>
    obtain ⟨k, v⟩ := kv
    by_cases h : k = c
    · simp [setMessages, h, getMessages, findConv]
    · simpa [setMessages, h, getMessages, findConv] using ih

/-- Lazily creating the channel entry does not change what is read back. -/
theorem getMessages_ensureChannel (convs : Conversations) (c : String) :
    getMessages (ensureChannel convs c) c = getMessages convs c := by
  unfold ensureChannel
  split
  · next h =>
    rw [getMessages_setMessages_self]
    simp [getMessages, Option.isNone_iff_eq_none.mp h]
  · rfl

/-- An append extends the channel's stored list by one message at the end. -/
theorem getMessages_appendMessage (convs : Conversations) (c : String)
    (m : Message) :
    getMessages (appendMessage convs c m) c = getMessages convs c ++ [m] := by
  unfold appendMessage
  exact getMessages_setMessages_self ..

/-- N sequential appends extend the channel's stored list by those N messages
in order. -/
theorem getMessages_appendAll (convs : Conversations) (c : String)
    (ms : List Message) :
    getMessages (appendAll convs c ms) c = getMessages convs c ++ ms := by
  induction ms generalizing convs with
  | nil => simp [appendAll]
  | cons m rest ih =>
    have h1 : appendAll convs c (m :: rest)
        = appendAll (appendMessage convs c m) c rest := rfl
    rw [h1, ih, getMessages_appendMessage, List.append_assoc]
    rfl

/-- The step-4 append leaves the channel's history as the old history plus the
current user message. -/
theorem getMessages_userAppended (bot : Option (Option String))
    (convs : Conversations) (event : InboundEvent) :
    getMessages (userAppended bot convs event) event.channel
      = getMessages convs event.channel
        ++ [⟨"user", effectiveText bot (event.text.getD "")⟩] := by
  unfold userAppended
  rw [getMessages_appendMessage, getMessages_ensureChannel]

/-- The `[-n:]` slice keeps `min (length) n` elements. -/
theorem lastN_length (n : Nat) (l : List α) :
    (lastN n l).length = min l.length n := by
  simp only [lastN, List.length_drop]
  omega

/-- The `[-n:]` slice is a suffix: the dropped prefix plus the slice is the
original list. -/
theorem lastN_is_suffix (n : Nat) (l : List α) :
    l.take (l.length - n) ++ lastN n l = l :=
  List.take_append_drop _ _

/-- A list no longer than the window is returned whole. -/
theorem lastN_of_length_le (n : Nat) (l : List α) (h : l.length ≤ n) :
    lastN n l = l := by
  simp [lastN, Nat.sub_eq_zero_of_le h]

/-- The window of a history ending in `x` still ends in `x`. -/
theorem lastN_concat_getLast (l : List α) (x : α) :
    (lastN 5 (l ++ [x])).getLast? = some x := by
  unfold lastN
  have hk : (l ++ [x]).length - 5 ≤ l.length := by
    simp only [List.length_append, List.length_singleton]
    omega
  rw [List.drop_append_of_le_length hk, List.getLast?_append_cons]
  rfl

/-- The second-from-last element of a history always lies inside the size-5
window, whatever the prefix length. -/
theorem mem_lastN_five_penult (l : List α) (x y : α) :
    x ∈ lastN 5 (l ++ [x, y]) := by
  unfold lastN
  have hk : (l ++ [x, y]).length - 5 ≤ l.length := by
    simp only [List.length_append, List.length_cons, List.length_nil]
    omega
  rw [List.drop_append_of_le_length hk]
  simp

/-- Step 1: a message whose `user` field equals the value read back for
`self.bot_id` is dropped before any state access. -/
theorem dispatch_discard (bot : Option (Option String)) (convs : Conversations)
    (event : InboundEvent) (gen : List Message → Except String String)
    (send : SayCall → Except String Unit)
    (h : event.user = getattr_bot_id bot) :
    process_message bot convs event gen send = ⟨convs, [], .discarded⟩ := by
  unfold process_message
  rw [if_pos h]

/-- Case-split form of `process_message` on the non-discard path: the result
is determined by the generation outcome on `windowFor` and by the send
outcomes. -/
theorem process_message_eq (bot : Option (Option String))
    (convs : Conversations) (event : InboundEvent)
    (gen : List Message → Except String String)
    (send : SayCall → Except String Unit)
    (h : ¬ event.user = getattr_bot_id bot) :
    process_message bot convs event gen send =
      match gen (windowFor bot convs event) with
      | .error e =>
        match send ⟨errorMessage e, event.channel, resolveAnchor event⟩ with
        | .ok _ => ⟨userAppended bot convs event,
            [⟨errorMessage e, event.channel, resolveAnchor event⟩], .sent⟩
        | .error m => ⟨userAppended bot convs event,
            [⟨errorMessage e, event.channel, resolveAnchor event⟩], .raised m⟩
      | .ok reply =>
        match send ⟨reply, event.channel, resolveAnchor event⟩ with
        | .ok _ => ⟨appendMessage (userAppended bot convs event) event.channel
              ⟨"assistant", reply⟩,
            [⟨reply, event.channel, resolveAnchor event⟩], .sent⟩
        | .error m =>
          match send ⟨errorMessage m, event.channel, resolveAnchor event⟩ with
          | .ok _ => ⟨appendMessage (userAppended bot convs event) event.channel
                ⟨"assistant", reply⟩,
              [⟨reply, event.channel, resolveAnchor event⟩,
               ⟨errorMessage m, event.channel, resolveAnchor event⟩], .sent⟩
          | .error m2 => ⟨appendMessage (userAppended bot convs event)
                event.channel ⟨"assistant", reply⟩,
              [⟨reply, event.channel, resolveAnchor event⟩,
               ⟨errorMessage m, event.channel, resolveAnchor event⟩],
              .raised m2⟩ := by
  unfold process_message
  rw [if_neg h]

/-- Modelled from the spec: the normalization the spec's words describe for
step 2 — strip only a LEADING `<@self_bot_id>` token if present, then trim
surrounding whitespace. Used only to compare against the source's
`effectiveText`. -/
def specLeadingMentionStrip (selfId raw : String) : String :=
  pyStrip (if (mentionToken selfId).data.isPrefixOf raw.data
    then ⟨raw.data.drop (mentionToken selfId).data.length⟩ else raw)

/-- Concrete fixture: the spec's end-to-end first event. -/
def evHi : InboundEvent :=
  { channel := "C1", user := some "U9", text := some "hi", ts := some "100" }

/-- Concrete fixture: a generation capability that always succeeds. -/
def genHello : List Message → Except String String :=
  fun _ => Except.ok "hello!"

/-- Concrete fixture: a generation capability that always raises. -/
def genBoom : List Message → Except String String :=
  fun _ => Except.error "boom"

/-- Concrete fixture: a send capability that always succeeds. -/
def sendOk : SayCall → Except String Unit := fun _ => Except.ok ()

/-- Concrete fixture: a send capability that always raises. -/
def sendDown : SayCall → Except String Unit :=
  fun _ => Except.error "transport down"

/-- Concrete fixture: a resolved bot identity. -/
def botB : Option (Option String) := some (some "BOT")

/-- Claim C1, as stated, is false: it quantifies over all behaviours of the
send capability, but when `say` raises, the `except`-block's own `say`
(line 118) raises too and the exception escapes `_process_message`; moreover
two sends were attempted, not exactly one. -/
theorem C1_counterexample :
    (process_message botB [] evHi genHello sendDown).outcome
      = DispatchOutcome.raised "transport down"
    ∧ (process_message botB [] evHi genHello sendDown).calls.length = 2 := by
  constructor <;> decide

/-- Claim C1 (amended): provided the send capability does not raise, every
dispatch terminates either in a silent discard (self-message, no send and no
state change) or in exactly one outbound send — the reply on generation
success, the `errorMessage` on generation failure — and never raises. -/
theorem C1_dispatch_containment (bot : Option (Option String))
    (convs : Conversations) (event : InboundEvent)
    (gen : List Message → Except String String)
    (send : SayCall → Except String Unit)
    (hsend : ∀ c, send c = Except.ok ()) :
    (process_message bot convs event gen send
        = ⟨convs, [], DispatchOutcome.discarded⟩
      ∧ event.user = getattr_bot_id bot)
    ∨ ((process_message bot convs event gen send).outcome
        = DispatchOutcome.sent
      ∧ ((∃ r, gen (windowFor bot convs event) = Except.ok r
            ∧ (process_message bot convs event gen send).calls
              = [⟨r, event.channel, resolveAnchor event⟩])
        ∨ (∃ e, gen (windowFor bot convs event) = Except.error e
            ∧ (process_message bot convs event gen send).calls
              = [⟨errorMessage e, event.channel, resolveAnchor event⟩]))) := by
  by_cases h : event.user = getattr_bot_id bot
  · exact Or.inl ⟨dispatch_discard bot convs event gen send h, h⟩
  · right
    rw [process_message_eq bot convs event gen send h]
    cases hg : gen (windowFor bot convs event) with
    | ok r =>
      simp only [hg, hsend]
      exact ⟨by trivial, Or.inl ⟨r, by trivial, by trivial⟩⟩
    | error e =>
      simp only [hg, hsend]
      exact ⟨by trivial, Or.inr ⟨e, by trivial, by trivial⟩⟩

/-- Witness for C1: the amended containment at the spec's concrete scenario
with a non-failing send. -/
theorem C1_dispatch_containment_witness :
    (process_message botB [] evHi genHello sendOk
        = ⟨[], [], DispatchOutcome.discarded⟩
      ∧ evHi.user = getattr_bot_id botB)
    ∨ ((process_message botB [] evHi genHello sendOk).outcome
        = DispatchOutcome.sent
      ∧ ((∃ r, genHello (windowFor botB [] evHi) = Except.ok r
            ∧ (process_message botB [] evHi genHello sendOk).calls
              = [⟨r, evHi.channel, resolveAnchor evHi⟩])
        ∨ (∃ e, genHello (windowFor botB [] evHi) = Except.error e
            ∧ (process_message botB [] evHi genHello sendOk).calls
              = [⟨errorMessage e, evHi.channel, resolveAnchor evHi⟩]))) :=
  C1_dispatch_containment botB [] evHi genHello sendOk (fun _ => rfl)

/-- Claim C2: when generation raises, the one attempted send carries the
apology message embedding the exception text, addressed to the originating
channel and resolved thread anchor, and the channel's stored history gains
only the user entry for that turn — no assistant entry. -/
theorem C2_generation_failure (bot : Option (Option String))
    (convs : Conversations) (event : InboundEvent)
    (gen : List Message → Except String String)
    (send : SayCall → Except String Unit) (e : String)
    (h : ¬ event.user = getattr_bot_id bot)
    (hg : gen (windowFor bot convs event) = Except.error e) :
    (process_message bot convs event gen send).calls
      = [⟨errorMessage e, event.channel, resolveAnchor event⟩]
    ∧ errorMessage e = "I\x27m sorry, I encountered an error: " ++ e
    ∧ getMessages (process_message bot convs event gen send).convs
        event.channel
      = getMessages convs event.channel
        ++ [⟨"user", effectiveText bot (event.text.getD "")⟩] := by
  rw [process_message_eq bot convs event gen send h]
  simp only [hg]
  cases hs : send ⟨errorMessage e, event.channel, resolveAnchor event⟩ with
  | ok _ =>
    simp only [hs]
    exact ⟨by trivial, by trivial, getMessages_userAppended bot convs event⟩
  | error m =>
    simp only [hs]
    exact ⟨by trivial, by trivial, getMessages_userAppended bot convs event⟩

/-- Witness for C2: the failure path at the concrete scenario. -/
theorem C2_generation_failure_witness :
    (process_message botB [] evHi genBoom sendOk).calls
      = [⟨errorMessage "boom", evHi.channel, resolveAnchor evHi⟩]
    ∧ errorMessage "boom" = "I\x27m sorry, I encountered an error: " ++ "boom"
    ∧ getMessages (process_message botB [] evHi genBoom sendOk).convs
        evHi.channel
      = getMessages [] evHi.channel
        ++ [⟨"user", effectiveText botB (evHi.text.getD "")⟩] :=
  C2_generation_failure botB [] evHi genBoom sendOk "boom" (by decide) rfl

/-- Claim C3, as stated, is false: line 83's `str.replace` removes EVERY
occurrence of the mention token, not only a leading one, so on
`"a <@U123> b"` the code yields `"a  b"` while a leading-only strip leaves
the text unchanged. -/
theorem C3_counterexample :
    effectiveText (some (some "U123")) "a <@U123> b" = "a  b"
    ∧ specLeadingMentionStrip "U123" "a <@U123> b" = "a <@U123> b"
    ∧ ¬ effectiveText (some (some "U123")) "a <@U123> b"
        = specLeadingMentionStrip "U123" "a <@U123> b" := by
  refine ⟨by decide, by decide, by decide⟩

/-- Claim C3 (amended): with a resolved non-empty bot id, the effective
content is the raw text with EVERY occurrence of `<@self_bot_id>` removed and
surrounding whitespace trimmed; in particular `"<@U123> hello"` with id
`"U123"` normalizes to `"hello"`, and an empty effective string is accepted:
it is appended as the user content and the turn completes with a reply. -/
theorem C3_mention_normalization :
    (∀ id raw, ¬ id = "" →
      effectiveText (some (some id)) raw
        = pyStrip (pyReplace raw (mentionToken id) ""))
    ∧ effectiveText (some (some "U123")) "<@U123> hello" = "hello"
    ∧ effectiveText (some (some "U123")) "" = ""
    ∧ (process_message (some (some "U123")) []
        { channel := "C", user := some "U9", text := some "<@U123>" }
        genHello sendOk).convs
      = [("C", [⟨"user", ""⟩, ⟨"assistant", "hello!"⟩])]
    ∧ (process_message (some (some "U123")) []
        { channel := "C", user := some "U9", text := some "<@U123>" }
        genHello sendOk).outcome = DispatchOutcome.sent := by
  refine ⟨?_, by decide, by decide, by decide, by decide⟩
  intro id raw h
  simp [effectiveText, h]

/-- Witness for C3: the general normalization equation at a concrete id and
raw text. -/
theorem C3_mention_normalization_witness :
    effectiveText (some (some "U9")) " <@U9> yo"
      = pyStrip (pyReplace " <@U9> yo" (mentionToken "U9") "") :=
  C3_mention_normalization.1 "U9" " <@U9> yo" (by decide)

/-- Claim C4: after N sequential appends to a channel, the size-5 window read
is exactly the last `min(N, 5)` appended messages in order, and the slice the
dispatcher passes to generation always ends with the current turn's user
message, because the step-4 append precedes the step-5 read. -/
theorem C4_recent_window (c : String) (ms : List Message)
    (bot : Option (Option String)) (convs : Conversations)
    (event : InboundEvent) :
    getMessages (appendAll [] c ms) c = ms
    ∧ recentWindow (appendAll [] c ms) c 5 = ms.drop (ms.length - 5)
    ∧ (recentWindow (appendAll [] c ms) c 5).length = min ms.length 5
    ∧ ms.take (ms.length - 5) ++ recentWindow (appendAll [] c ms) c 5 = ms
    ∧ (windowFor bot convs event).getLast?
      = some ⟨"user", effectiveText bot (event.text.getD "")⟩ := by
  have hall : getMessages (appendAll [] c ms) c = ms := by
    rw [getMessages_appendAll]
    rfl
  refine ⟨hall, ?_, ?_, ?_, ?_⟩
  · rw [recentWindow, hall]
    rfl
  · rw [recentWindow, hall]
    exact lastN_length 5 ms
  · rw [recentWindow, hall]
    exact lastN_is_suffix 5 ms
  · rw [windowFor, recentWindow, getMessages_userAppended]
    exact lastN_concat_getLast _ _

/-- Claim C5: an event whose `user` equals the resolved bot identity is
discarded before any state access: the conversation map is returned
untouched, no channel entry is created, and no send is attempted. -/
theorem C5_self_message_discard (bot : Option (Option String))
    (convs : Conversations) (event : InboundEvent)
    (gen : List Message → Except String String)
    (send : SayCall → Except String Unit) (id : String)
    (hb : bot = some (some id)) (hu : event.user = some id) :
    process_message bot convs event gen send
      = ⟨convs, [], DispatchOutcome.discarded⟩ :=
  dispatch_discard bot convs event gen send (by rw [hb, hu]; rfl)

/-- Witness for C5: a self-message at the resolved identity is dropped with
no state change and no send. -/
theorem C5_self_message_discard_witness :
    process_message botB []
      { channel := "C1", user := some "BOT", text := some "x", ts := some "1" }
      genHello sendOk
      = ⟨[], [], DispatchOutcome.discarded⟩ :=
  C5_self_message_discard botB []
    { channel := "C1", user := some "BOT", text := some "x", ts := some "1" }
    genHello sendOk "BOT" rfl rfl

/-- Claim C6: `OpenAIAgent.connect` attempts every owned server in order, no
matter which connects fail, logging each failure with that server's name; the
loop body catches every exception, so the call always completes and returns. -/
theorem C6_connect_fanout (servers : List MCPServer)
    (outcome : MCPServer → Except String Unit) :
    (connect servers outcome).1 = servers.map MCPServer.name
    ∧ (∀ s e, s ∈ servers → outcome s = Except.error e →
        LogEntry.error
            ("Error during connecting of server " ++ s.name ++ ": " ++ e)
          ∈ (connect servers outcome).2) := by
  induction servers with
  | nil => exact ⟨rfl, by simp⟩
  | cons s rest ih =>
    constructor
    · show (connect (s :: rest) outcome).1 = s.name :: rest.map MCPServer.name
      unfold connect
      cases ho : outcome s
      · simp only
        rw [ih.1]
      · simp only
        rw [ih.1]
    · intro s' e hmem hout
      rcases List.mem_cons.mp hmem with hs' | hs'
      · subst hs'
        unfold connect
        rw [hout]
        exact List.mem_cons_self _ _
      · have htail := ih.2 s' e hs' hout
        unfold connect
        cases ho : outcome s
        · simp only
          exact List.mem_cons_of_mem _ htail
        · simp only
          exact List.mem_cons_of_mem _ htail

/-- Witness for C6: two servers where the first fails to connect — both are
attempted and the failure is logged with the failing server's name. -/
theorem C6_connect_fanout_witness :
    (connect [⟨"A"⟩, ⟨"B"⟩]
        (fun s => if s.name = "A" then Except.error "down" else Except.ok ())).1
      = ["A", "B"]
    ∧ LogEntry.error ("Error during connecting of server " ++ "A" ++ ": "
        ++ "down")
      ∈ (connect [⟨"A"⟩, ⟨"B"⟩]
        (fun s => if s.name = "A" then Except.error "down"
          else Except.ok ())).2 :=
  ⟨(C6_connect_fanout [⟨"A"⟩, ⟨"B"⟩]
      (fun s => if s.name = "A" then Except.error "down" else Except.ok ())).1,
   (C6_connect_fanout [⟨"A"⟩, ⟨"B"⟩]
      (fun s => if s.name = "A" then Except.error "down" else Except.ok ())).2
     ⟨"A"⟩ "down" (by simp) rfl⟩


/-- Concrete fixture: the spec's end-to-end follow-up event, carrying both a
thread anchor and its own timestamp. -/
def evOkThanks : InboundEvent :=
  { channel := "C1", user := some "U9", text := some "ok thanks",
    thread_ts := some "100", ts := some "101" }

/-- Concrete fixture: a second-turn event without a thread anchor. -/
def evOk : InboundEvent :=
  { channel := "C1", user := some "U9", text := some "ok", ts := some "101" }

/-- Concrete fixture: an event that carries no `user` field. -/
def evNoUser : InboundEvent :=
  { channel := "C1", user := none, text := some "hi", ts := some "1" }

/-- Concrete fixture: an event whose text has surrounding whitespace and a
foreign mention token. -/
def evPadded : InboundEvent :=
  { channel := "C1", user := some "U9", text := some "  <@U1> hi ",
    ts := some "1" }

/-- Claim C7: every send this dispatch attempts is addressed to the
originating channel at the resolved anchor — `thread_ts` when present,
otherwise `ts`; in particular a follow-up carrying `ts = "101"` and
`thread_ts = "100"` is answered in thread `"100"`, not `"101"`. -/
theorem C7_thread_anchor (bot : Option (Option String))
    (convs : Conversations) (event : InboundEvent)
    (gen : List Message → Except String String)
    (send : SayCall → Except String Unit) :
    ((process_message bot convs event gen send).calls.all
      (fun c => c.channel == event.channel
        && c.thread_ts == resolveAnchor event)) = true
    ∧ resolveAnchor evOkThanks = some "100"
    ∧ (process_message botB
        [("C1", [⟨"user", "hi"⟩, ⟨"assistant", "hello!"⟩])]
        evOkThanks genHello sendOk).calls
      = [⟨"hello!", "C1", some "100"⟩] := by
  refine ⟨?_, by decide, by decide⟩
  by_cases h : event.user = getattr_bot_id bot
  · rw [dispatch_discard bot convs event gen send h]
    rfl
  · rw [process_message_eq bot convs event gen send h]
    cases hg : gen (windowFor bot convs event) with
    | error e =>
      cases hs : send ⟨errorMessage e, event.channel, resolveAnchor event⟩ <;>
        simp [hs]
    | ok r =>
      cases hs : send ⟨r, event.channel, resolveAnchor event⟩ with
      | ok _ => simp [hs]
      | error m =>
        cases hs2 : send ⟨errorMessage m, event.channel, resolveAnchor event⟩
          <;> simp [hs, hs2]

/-- Claim C8, as stated, is false: after a failed identity lookup
(`self.bot_id = None`), an event that carries no `user` field reads as `None`
on line 74, which compares equal to the unset bot id on line 77, so the event
IS discarded by the self-message check. -/
theorem C8_counterexample :
    process_message (some none) [] evNoUser genHello sendOk
      = ⟨[], [], DispatchOutcome.discarded⟩ := by decide

/-- Claim C8 (amended): a failed identity lookup is caught and only logged —
the method still returns, with the bot id attribute set to `None` — and
self-filtering is then disabled for every event that carries a `user` field;
however an event with no `user` field is still discarded, because its missing
`user` reads as `None`, which equals the unset bot id. -/
theorem C8_identity_failure_filtering :
    (∀ e, initialize_bot_info (Except.error e)
      = (some none, [LogEntry.error ("Failed to get bot info: " ++ e)]))
    ∧ (∀ (convs : Conversations) (event : InboundEvent)
        (gen : List Message → Except String String)
        (send : SayCall → Except String Unit) (u : String),
        event.user = some u →
        ¬ (process_message (some none) convs event gen send).outcome
            = DispatchOutcome.discarded)
    ∧ (∀ (convs : Conversations) (event : InboundEvent)
        (gen : List Message → Except String String)
        (send : SayCall → Except String Unit),
        event.user = none →
        process_message (some none) convs event gen send
          = ⟨convs, [], DispatchOutcome.discarded⟩) := by
  refine ⟨fun e => rfl, ?_, ?_⟩
  · intro convs event gen send u hu
    have h : ¬ event.user = getattr_bot_id (some none) := by
      rw [hu]
      exact fun hc => Option.noConfusion hc
    rw [process_message_eq (some none) convs event gen send h]
    cases hg : gen (windowFor (some none) convs event) with
    | error e =>
      cases hs : send ⟨errorMessage e, event.channel, resolveAnchor event⟩ <;>
        simp [hs]
    | ok r =>
      cases hs : send ⟨r, event.channel, resolveAnchor event⟩ with
      | ok _ => simp [hs]
      | error m =>
        cases hs2 : send ⟨errorMessage m, event.channel, resolveAnchor event⟩
          <;> simp [hs, hs2]
  · intro convs event gen send hu
    exact dispatch_discard _ _ _ _ _ (by rw [hu]; rfl)

/-- Witness for C8: with the bot id unset, an event with a `user` field is
processed, while an event without one is discarded. -/
theorem C8_identity_failure_filtering_witness :
    ¬ (process_message (some none) [] evHi genHello sendOk).outcome
        = DispatchOutcome.discarded
    ∧ process_message (some none) [] evNoUser genHello sendOk
      = ⟨[], [], DispatchOutcome.discarded⟩ :=
  ⟨C8_identity_failure_filtering.2.1 [] evHi genHello sendOk "U9" rfl,
   C8_identity_failure_filtering.2.2 [] evNoUser genHello sendOk rfl⟩

/-- Claim C9, as stated, is false: the failed turn's USER message was already
appended at step 4 and stays in history, so it does appear in the window the
next event reads — here the window after a failed `"hi"` turn followed by
`"ok"` is `[user "hi", user "ok"]`, containing the failed turn's entry. -/
theorem C9_counterexample :
    windowFor botB (process_message botB [] evHi genBoom sendOk).convs evOk
      = [⟨"user", "hi"⟩, ⟨"user", "ok"⟩]
    ∧ Message.mk "user" "hi"
      ∈ windowFor botB (process_message botB [] evHi genBoom sendOk).convs
          evOk := by
  refine ⟨by decide, by decide⟩

/-- Claim C9 (amended): after a turn whose generation fails, the channel's
history gains exactly the user entry — no assistant entry — so nothing from
the failed generation pollutes later windows; the failed turn's user message
itself remains and always appears in the subsequent event's window on that
channel, since after the next append it sits second-from-last, inside any
size-5 window. -/
theorem C9_failed_turn_history (bot : Option (Option String))
    (convs : Conversations) (event : InboundEvent)
    (gen : List Message → Except String String)
    (send : SayCall → Except String Unit) (e : String)
    (h : ¬ event.user = getattr_bot_id bot)
    (hg : gen (windowFor bot convs event) = Except.error e) :
    getMessages (process_message bot convs event gen send).convs event.channel
      = getMessages convs event.channel
        ++ [⟨"user", effectiveText bot (event.text.getD "")⟩]
    ∧ ∀ event2 : InboundEvent, event2.channel = event.channel →
        Message.mk "user" (effectiveText bot (event.text.getD ""))
          ∈ windowFor bot (process_message bot convs event gen send).convs
              event2 := by
  have hmain : getMessages
      (process_message bot convs event gen send).convs event.channel
      = getMessages convs event.channel
        ++ [⟨"user", effectiveText bot (event.text.getD "")⟩] := by
    rw [process_message_eq bot convs event gen send h]
    simp only [hg]
    cases hs : send ⟨errorMessage e, event.channel, resolveAnchor event⟩ <;>
      · simp only [hs]
        exact getMessages_userAppended bot convs event
  refine ⟨hmain, ?_⟩
  intro event2 hch
  rw [windowFor, recentWindow, getMessages_userAppended, hch, hmain,
    List.append_assoc]
  exact mem_lastN_five_penult _ _ _

/-- Witness for C9: the amended isolation at the concrete two-turn
scenario. -/
theorem C9_failed_turn_history_witness :
    getMessages (process_message botB [] evHi genBoom sendOk).convs
        evHi.channel
      = getMessages [] evHi.channel
        ++ [⟨"user", effectiveText botB (evHi.text.getD "")⟩]
    ∧ Message.mk "user" (effectiveText botB (evHi.text.getD ""))
      ∈ windowFor botB (process_message botB [] evHi genBoom sendOk).convs
          evOk :=
  ⟨(C9_failed_turn_history botB [] evHi genBoom sendOk "boom"
      (by decide) rfl).1,
   (C9_failed_turn_history botB [] evHi genBoom sendOk "boom"
      (by decide) rfl).2 evOk rfl⟩

/-- Claim C10: when the bot id attribute is absent or `None`, lines 81-83
apply no normalization — no mention removal and no whitespace trimming — and
the raw text is appended to the channel's history verbatim. -/
theorem C10_unset_bot_id_verbatim (bot : Option (Option String))
    (convs : Conversations) (event : InboundEvent)
    (gen : List Message → Except String String)
    (send : SayCall → Except String Unit)
    (hb : getattr_bot_id bot = none) (hu : ¬ event.user = none) :
    effectiveText bot (event.text.getD "") = event.text.getD ""
    ∧ ∃ rest,
        getMessages (process_message bot convs event gen send).convs
            event.channel
          = getMessages convs event.channel
            ++ ⟨"user", event.text.getD ""⟩ :: rest := by
  have heff : effectiveText bot (event.text.getD "") = event.text.getD "" := by
    match bot with
    | none => rfl
    | some none => rfl
    | some (some id) => exact absurd hb (by simp [getattr_bot_id])
  refine ⟨heff, ?_⟩
  have h : ¬ event.user = getattr_bot_id bot := by
    rw [hb]
    exact hu
  rw [process_message_eq bot convs event gen send h]
  cases hg : gen (windowFor bot convs event) with
  | error e =>
    cases hs : send ⟨errorMessage e, event.channel, resolveAnchor event⟩ <;>
      · simp only [hs]
        refine ⟨[], ?_⟩
        rw [getMessages_userAppended, heff]
  | ok r =>
    cases hs : send ⟨r, event.channel, resolveAnchor event⟩ with
    | ok _ =>
      simp only [hs]
      refine ⟨[⟨"assistant", r⟩], ?_⟩
      rw [getMessages_appendMessage, getMessages_userAppended, heff,
        List.append_assoc]
      rfl
    | error m =>
      cases hs2 : send ⟨errorMessage m, event.channel, resolveAnchor event⟩ <;>
        · simp only [hs, hs2]
          refine ⟨[⟨"assistant", r⟩], ?_⟩
          rw [getMessages_appendMessage, getMessages_userAppended, heff,
            List.append_assoc]
          rfl

/-- Witness for C10: with the bot id set to `None`, a padded text containing
a mention token is appended exactly as received. -/
theorem C10_unset_bot_id_verbatim_witness :
    effectiveText (some none) (evPadded.text.getD "")
      = evPadded.text.getD ""
    ∧ ∃ rest,
        getMessages (process_message (some none) [] evPadded genHello
            sendOk).convs evPadded.channel
          = getMessages [] evPadded.channel
            ++ ⟨"user", evPadded.text.getD ""⟩ :: rest :=
  C10_unset_bot_id_verbatim (some none) [] evPadded genHello sendOk rfl
    (by decide)
